import Mathlib

/-
Verification of the cypherantic object-graph mapping engine
(src/cypherantic/__init__.py) via a shallow embedding in Lean 4.

The embedding mirrors the Python module:
  * model classes (pydantic models with `cypherantic_config` and per-field
    metadata) become `ModelCls` / `RelCls` values;
  * instances become `Obj` / `RelObj` values (field-name/value maps);
  * the neo4j session becomes a `Session` record: a transaction flag plus a
    response function from queries to either an I/O failure, or the record
    returned by `result.single()` (`none` when the stream yields no row);
  * each `session.run(query, **params)` call is recorded in an explicit
    trace of `Query` values (text plus parameter map), so the statements
    issued by an operation are observable;
  * the process-wide `_known_constraints` set becomes an explicit list of
    model classes threaded through the operations;
  * raised Python exceptions become `Except` errors carrying the exception
    class from the module's class hierarchy (`ErrClass`).
-/

namespace Cypherantic

/-- Cypher value stored in a model field (scalars suffice for the claims). -/
inductive Val where
  | str (s : String)
  | int (z : Int)
  | bool (b : Bool)
  | none
deriving DecidableEq

/-- Relationship direction, `typing.Literal['INCOMING', 'OUTGOING', 'UNDIRECTED']`
(the `Relationship` annotation itself only ever carries the first two). -/
inductive Direction where
  | INCOMING
  | OUTGOING
  | UNDIRECTED
deriving DecidableEq

/-- One metadata marker attached to a pydantic field: the module's
`Field(unique=...)` and `Relationship(rel_type, direction)` dataclasses,
plus `other` for unrelated annotation metadata. -/
inductive Meta where
  | field (unique : Bool)
  | relationship (rel_type : String) (direction : Direction)
  | other
deriving DecidableEq

/-- A node model class: `__name__`, the optional `cypherantic_config['labels']`
entry, and `model_fields` in declaration order (field name with its metadata
list). -/
structure ModelCls where
  name : String
  config_labels : Option (List String)
  fields : List (String × List Meta)
deriving DecidableEq

/-- A relationship-properties model class: `__name__` and the optional
`cypherantic_config['rel_type']` entry. -/
structure RelCls where
  name : String
  config_rel_type : Option String
deriving DecidableEq

/-- An instance of a node model: its class and its field values. -/
structure Obj where
  cls : ModelCls
  attrs : List (String × Val)
deriving DecidableEq

/-- An instance of a relationship-properties model. -/
structure RelObj where
  cls : RelCls
  attrs : List (String × Val)
deriving DecidableEq

/-- Python `getattr(instance, field)`; model fields are always populated on a
validated pydantic instance. -/
def getattr (o : Obj) (f : String) : Val :=
  match o.attrs.lookup f with
  | some v => v
  | Option.none => Val.none

/-- A parameter value bound into a query: a plain string (the relationship
name) or a property map. -/
inductive PVal where
  | str (s : String)
  | map (entries : List (String × Val))
deriving DecidableEq

/-- One `session.run` call: the query text and its bound parameter map
(`**parameters` keyword order preserved). -/
structure Query where
  text : String
  params : List (String × PVal)
deriving DecidableEq

/-- The module's exception class hierarchy (lines 14-23 of the source),
together with the Python builtins it hangs off. -/
inductive ErrClass where
  | exception
  | valueError
  | typeError
  | cypheranticError
  | invalidValueError
  | invalidRelationshipError
deriving DecidableEq, BEq

/-- Direct base classes, exactly as declared in the source:
`CypheranticError(Exception)`, `InvalidValueError(CypheranticError, ValueError)`,
`InvalidRelationshipError(InvalidValueError)`. -/
def direct_bases : ErrClass → List ErrClass
  | .exception => []
  | .valueError => [.exception]
  | .typeError => [.exception]
  | .cypheranticError => [.exception]
  | .invalidValueError => [.cypheranticError, .valueError]
  | .invalidRelationshipError => [.invalidValueError]

/-- Reflexive-transitive closure of `direct_bases`, with fuel (the hierarchy
has depth at most 4, so fuel 6 is exact). Models Python `issubclass`. -/
def isSubclassFuel : Nat → ErrClass → ErrClass → Bool
  | 0, _, _ => false
  | n + 1, c, d => c == d || (direct_bases c).any fun b => isSubclassFuel n b d

/-- Python `issubclass` over the module's exception classes. -/
def isSubclass (c d : ErrClass) : Bool := isSubclassFuel 6 c d

/-- An exception escaping an engine operation: either one the engine raised
itself (class plus message) or an unmodified failure propagated from the
session's `run`. -/
inductive PyErr where
  | engine (cls : ErrClass) (msg : String)
  | sessionFailure
deriving DecidableEq

/-- The caller-supplied graph session: whether it is an explicit
`neo4j.AsyncTransaction`, and the observable outcome of running a query —
`.error ()` when `run`/result consumption raises, otherwise the record
`result.single()` yields (`none` for an empty stream; the record itself is
an opaque node/relationship handle, modelled as `Nat`). -/
structure Session where
  is_transaction : Bool
  runResult : Query → Except Unit (Option Nat)

/-- Test `isinstance(md, Field) and md.unique`. -/
def isUniqueFieldMeta : Meta → Bool
  | .field u => u
  | _ => false

/-- Test `isinstance(md, Relationship)` over a field's metadata list. -/
def hasRelationshipMeta (mds : List Meta) : Bool :=
  mds.any fun md =>
    match md with
    | .relationship _ _ => true
    | _ => false

/-- Function `_extract_labels` (source lines 302-309): the declared
`cypherantic_config['labels']` when the key is present, else the class name. -/
def _extract_labels (cls : ModelCls) : List String :=
  match cls.config_labels with
  | some ls => ls
  | Option.none => [cls.name]

/-- The label lookup inlined in `create_node` (source lines 94-100): same
`config['labels']`-or-class-name computation, written at the call site. -/
def create_node_labels (cls : ModelCls) : List String :=
  match cls.config_labels with
  | some ls => ls
  | Option.none => [cls.name]

/-- Function `_extract_key_fields` (source lines 312-318): for every field, one entry
per `Field(unique=True)` metadata marker, in declaration order. -/
def _extract_key_fields (cls : ModelCls) : List String :=
  (cls.fields.map fun f => (f.2.filter isUniqueFieldMeta).map fun _ => f.1).flatten

/-- Python dict-comprehension key semantics: first occurrence kept, later
duplicates dropped (they only overwrite the value, which is identical here).
`seen` accumulates the keys already inserted. -/
def firstDedupAux : List String → List String → List String
  | _, [] => []
  | seen, x :: xs =>
    if x ∈ seen then firstDedupAux seen xs
    else x :: firstDedupAux (x :: seen) xs

/-- Keys of `{field: ... for field in l}` in insertion order. -/
def firstDedup (l : List String) : List String := firstDedupAux [] l

/-- Function `_build_match_clause` (source lines 290-299): empty string when the
key-field dict is empty, else `{f1:$alias.f1,...}` — `','.join` of
`f'{key}:{value}'` pieces wrapped in braces ('{{{}}}'.format). -/
def _build_match_clause (cls : ModelCls) (param_alias : String) : String :=
  let keys := firstDedup (_extract_key_fields cls)
  if keys = [] then ""
  else "\x7b" ++ String.intercalate "," (keys.map fun k => k ++ ":$" ++ param_alias ++ "." ++ k) ++ "\x7d"

/-- The node-creation statement of `create_node` (source lines 105-114):
`CREATE (n:{labels joined by &} $properties) RETURN n`, with the property map
holding every dumped field that carries no `Relationship` metadata. -/
def create_node_query (o : Obj) : Query :=
  let properties := (o.cls.fields.filter fun f => !hasRelationshipMeta f.2).map
    fun f => (f.1, getattr o f.1)
  let tail := String.intercalate "&" (create_node_labels o.cls) ++ " $properties) RETURN n"
  ⟨"CREATE (n:" ++ tail, [("properties", PVal.map properties)]⟩

/-- The constraint statement built inside `_ensure_constraints` (source
lines 337-343): `CREATE CONSTRAINT {name}_unique IF NOT EXISTS FOR
(n:{first label}) REQUIRE (n.f1, n.f2, ...) IS UNIQUE`. The source computes
`unique_constraints` with the same loop as `_extract_key_fields` and only
builds the query when that list is non-empty, so `headD` is only ever taken
on a non-empty label list. -/
def constraint_query (cls : ModelCls) (node_labels : List String) : Query :=
  let constraint_name := cls.name ++ "_unique"
  let props := String.intercalate ", " ((_extract_key_fields cls).map fun p => "n." ++ p)
  let tail := constraint_name ++ " IF NOT EXISTS FOR (n:" ++ node_labels.headD "" ++
    ") REQUIRE (" ++ props ++ ") IS UNIQUE"
  ⟨"CREATE CONSTRAINT " ++ tail, []⟩

/-- Function `_ensure_constraints` (source lines 321-345), as a state transformer over
the `_known_constraints` set (modelled as a list, membership up to `∈`).
Returns the call's outcome, the queries it ran, and the updated set:
  * immediate return when the session is an `AsyncTransaction`;
  * immediate return when `node_labels` is empty or the class is cached;
  * otherwise the unique fields are collected; when non-empty the constraint
    statement is executed — a raise propagates *before* the set is updated —
    and finally the class is added to the set. -/
def _ensure_constraints (sess : Session) (st : List ModelCls) (cls : ModelCls)
    (node_labels : List String) : Except PyErr Unit × List Query × List ModelCls :=
  if sess.is_transaction then (.ok (), [], st)
  else if node_labels = [] ∨ cls ∈ st then (.ok (), [], st)
  else
    let unique_constraints := _extract_key_fields cls
    if unique_constraints = [] then (.ok (), [], cls :: st)
    else
      let q := constraint_query cls node_labels
      match sess.runResult q with
      | .error () => (.error .sessionFailure, [q], st)
      | .ok _ => (.ok (), [q], cls :: st)

/-- Function `create_node` (source lines 90-118): resolve the labels, run
`_ensure_constraints` unless the class is already cached, then execute the
creation statement; `record is None` (no row) raises
`CypheranticError('Failed to create node')`, and a session failure at either
statement propagates unchanged. Result: outcome, trace of issued queries,
updated constraint cache. -/
def create_node (sess : Session) (st : List ModelCls) (o : Obj) :
    Except PyErr Nat × List Query × List ModelCls :=
  let node_labels := create_node_labels o.cls
  let ens : Except PyErr Unit × List Query × List ModelCls :=
    if o.cls ∈ st then (.ok (), [], st)
    else _ensure_constraints sess st o.cls node_labels
  match ens.1 with
  | .error e => (.error e, ens.2.1, ens.2.2)
  | .ok () =>
    let q := create_node_query o
    match sess.runResult q with
    | .error () => (.error .sessionFailure, ens.2.1 ++ [q], ens.2.2)
    | .ok Option.none =>
      (.error (.engine .cypheranticError "Failed to create node"), ens.2.1 ++ [q], ens.2.2)
    | .ok (some n) => (.ok n, ens.2.1 ++ [q], ens.2.2)

/-- N sequential `create_node` calls in one process: the constraint cache is
threaded from call to call and the issued queries are concatenated. -/
def run_create_nodes (sess : Session) : List ModelCls → List Obj → List Query × List ModelCls
  | st, [] => ([], st)
  | st, o :: os =>
    let first := create_node sess st o
    let rest := run_create_nodes sess first.2.2 os
    (first.2.1 ++ rest.1, rest.2)

/-- The MATCH-MATCH-CREATE statement of `create_relationship` (source lines
162-195): key-field property maps for both endpoints, the relationship name
bound as the `rel_name` parameter (referenced in the text only as
`$($rel_name)`), the dumped relationship properties (empty map when no
properties instance was given), and the rendered query text. -/
def create_relationship_query (from_node to_node : Obj) (rel_name : String)
    (rel_props : Option RelObj) : Query :=
  let from_props := (_extract_key_fields from_node.cls).map fun f => (f, getattr from_node f)
  let to_props := (_extract_key_fields to_node.cls).map fun f => (f, getattr to_node f)
  let rp_dump := match rel_props with
    | some rp => rp.attrs
    | Option.none => []
  let params : List (String × PVal) :=
    [("from_node_props", PVal.map from_props),
     ("rel_name", PVal.str rel_name),
     ("rel_props", PVal.map rp_dump),
     ("to_node_props", PVal.map to_props)]
  let source_labels := String.intercalate "&" (_extract_labels from_node.cls)
  let target_labels := String.intercalate "&" (_extract_labels to_node.cls)
  let source_match := _build_match_clause from_node.cls "from_node_props"
  let target_match := _build_match_clause to_node.cls "to_node_props"
  ⟨"MATCH (a:" ++ source_labels ++ " " ++ source_match ++ ") WITH a MATCH (b:" ++
     target_labels ++ " " ++ target_match ++
     ") CREATE (a)-[r:$($rel_name) $rel_props]->(b) RETURN r",
   params⟩

/-- The execution tail of `create_relationship` once the relationship name is
resolved: run the statement, propagate session failures, raise
`CypheranticError('Failed to create relationship')` on an empty result. -/
def create_relationship_go (sess : Session) (from_node to_node : Obj)
    (rel_props : Option RelObj) (rel_name : String) :
    Except PyErr Nat × List Query :=
  let q := create_relationship_query from_node to_node rel_name rel_props
  match sess.runResult q with
  | .error () => (.error .sessionFailure, [q])
  | .ok Option.none => (.error (.engine .cypheranticError "Failed to create relationship"), [q])
  | .ok (some r) => (.ok r, [q])

/-- Function `create_relationship` (source lines 140-199). The relationship name is
resolved first — explicit `rel_type` argument, else the properties class'
`cypherantic_config.get('rel_type', cls.__name__)` — and when neither a name
nor a properties instance is supplied,
`CypheranticError('Either rel_cls or rel_type must be provided')` is raised
before anything touches the session (hence the empty trace). -/
def create_relationship (sess : Session) (from_node to_node : Obj)
    (rel_props : Option RelObj) (rel_type : Option String) :
    Except PyErr Nat × List Query :=
  match rel_type, rel_props with
  | some rt, _ => create_relationship_go sess from_node to_node rel_props rt
  | Option.none, some rp =>
    create_relationship_go sess from_node to_node rel_props
      (match rp.cls.config_rel_type with
       | some v => v
       | Option.none => rp.cls.name)
  | Option.none, Option.none =>
    (.error (.engine .cypheranticError "Either rel_cls or rel_type must be provided"), [])

/-- The request built by `retrieve_relationship_edges` (source lines
254-281): parameter map (`from_node_props` key-field map, then `rel_name`),
source labels and match fragment, and the direction-selected query text. -/
def retrieve_relationship_edges_request (model : Obj) (rel_name : String)
    (direction : Direction) : Query :=
  let params : List (String × PVal) :=
    [("from_node_props",
       PVal.map ((_extract_key_fields model.cls).map fun f => (f, getattr model f))),
     ("rel_name", PVal.str rel_name)]
  let source_labels := String.intercalate "&" (_extract_labels model.cls)
  let source_match := _build_match_clause model.cls "from_node_props"
  match direction with
  | .INCOMING =>
    ⟨"MATCH (b)-[r:$($rel_name)]->(a:" ++ source_labels ++ " " ++ source_match ++ ") RETURN r, b",
     params⟩
  | .OUTGOING =>
    ⟨"MATCH (a:" ++ source_labels ++ " " ++ source_match ++ ")-[r:$($rel_name)]->(b) RETURN r, b",
     params⟩
  | .UNDIRECTED =>
    ⟨"MATCH (a:" ++ source_labels ++ " " ++ source_match ++ ")-[r:$($rel_name)]-(b) RETURN r, b",
     params⟩

/-- A statement counts as a constraint-creation statement when its text
starts with `CREATE CONSTRAINT` (the creation / relationship statements
start with `CREATE (n:` / `MATCH (`). -/
def is_constraint_query (q : Query) : Bool :=
  "CREATE CONSTRAINT".data.isPrefixOf q.text.data

/-- The value bound under `rel_name` in the single statement an operation
issued (`none` when the trace is not a single statement or the key is
absent). -/
def sent_rel_name (res : Except PyErr Nat × List Query) : Option PVal :=
  match res.2 with
  | [q] => q.params.lookup "rel_name"
  | _ => Option.none

/-- The exception class raised at each validation raise-site of the module,
in source order: `unwrap_node_as` (absent record, line 75),
`unwrap_result_as_node` (empty record line 84, too many columns line 86),
`refresh_relationship` (missing field line 211, missing generic type line
217, non-sequence field line 222, zero-or-many `Relationship` markers line
230). -/
def validation_raise_classes : List ErrClass :=
  [.invalidValueError, .invalidValueError, .invalidValueError,
   .invalidValueError, .invalidRelationshipError, .invalidRelationshipError,
   .invalidRelationshipError]

/-! Concrete fixtures used by witnesses and counterexamples. -/

/-- Model `class Person(NodeModel): name: ... Field(unique=True)` with no declared
labels. -/
def personCls : ModelCls := ⟨"Person", Option.none, [("name", [Meta.field true])]⟩

/-- A model class that declares an *empty* label list:
`cypherantic_config = {'labels': []}`, with one unique field. -/
def emptyLabelsCls : ModelCls := ⟨"Odd", some [], [("k", [Meta.field true])]⟩

/-- A relationship-properties class with a declared `rel_type`. -/
def likesRelCls : RelCls := ⟨"Likes", some "LIKES"⟩

/-- A relationship-properties class without a declared `rel_type`. -/
def plainRelCls : RelCls := ⟨"Knows", Option.none⟩

def alice : Obj := ⟨personCls, [("name", Val.str "Alice")]⟩

def bob : Obj := ⟨personCls, [("name", Val.str "Bob")]⟩

def oddObj : Obj := ⟨emptyLabelsCls, [("k", Val.int 1)]⟩

def likesObj : RelObj := ⟨likesRelCls, []⟩

def plainRelObj : RelObj := ⟨plainRelCls, []⟩

/-- A non-transaction session whose every statement succeeds and returns one
record. -/
def okSession : Session := ⟨false, fun _ => .ok (some 0)⟩

/-- An explicit-transaction session. -/
def txSession : Session := ⟨true, fun _ => .ok (some 0)⟩

/-- A non-transaction session whose every statement raises. -/
def failSession : Session := ⟨false, fun _ => .error ()⟩

/-- A non-transaction session whose statements succeed but whose result
stream yields no row (`result.single()` is `None`). -/
def noRowSession : Session := ⟨false, fun _ => .ok Option.none⟩

/-! Helper lemmas. -/

theorem is_constraint_query_constraint (cls : ModelCls) (ls : List String) :
    is_constraint_query (constraint_query cls ls) = true := rfl

theorem is_constraint_query_creation (o : Obj) :
    is_constraint_query (create_node_query o) = false := rfl

/-- A fresh class (not cached) on a non-transaction session with non-empty
labels, at least one unique field and a fully succeeding session: the call
issues exactly the constraint statement followed by the creation statement,
and caches the class. -/
theorem create_node_fresh_spec (sess : Session) (st : List ModelCls) (o : Obj)
    (htx : sess.is_transaction = false)
    (hrun : ∀ q, sess.runResult q = .ok (some 0))
    (hfresh : o.cls ∉ st)
    (hlab : create_node_labels o.cls ≠ [])
    (huniq : _extract_key_fields o.cls ≠ []) :
    create_node sess st o =
      (.ok 0, [constraint_query o.cls (create_node_labels o.cls), create_node_query o],
       o.cls :: st) := by
  unfold create_node _ensure_constraints
  simp [htx, hfresh, hlab, huniq, hrun]

/-- A cached class: `create_node` skips `_ensure_constraints` entirely and
issues only the creation statement, leaving the cache unchanged. -/
theorem create_node_cached_spec (sess : Session) (st : List ModelCls) (o : Obj)
    (hrun : ∀ q, sess.runResult q = .ok (some 0))
    (hmem : o.cls ∈ st) :
    create_node sess st o = (.ok 0, [create_node_query o], st) := by
  unfold create_node
  simp [hmem, hrun]

/-- Once the class is cached, any run of further `create_node` calls for
instances of that class issues no constraint statement and leaves the cache
unchanged. -/
theorem run_create_nodes_cached (sess : Session) (cls : ModelCls)
    (hrun : ∀ q, sess.runResult q = .ok (some 0)) :
    ∀ (os : List Obj) (st : List ModelCls), (∀ o ∈ os, o.cls = cls) → cls ∈ st →
      (run_create_nodes sess st os).1.filter is_constraint_query = [] ∧
      (run_create_nodes sess st os).2 = st := by
  intro os
  induction os with
  | nil => intro st _ _; exact ⟨rfl, rfl⟩
  | cons o os ih =>
    intro st hcls hmem
    have ho : o.cls = cls := hcls o (by simp)
    have h1 : create_node sess st o = (.ok 0, [create_node_query o], st) :=
      create_node_cached_spec sess st o hrun (ho ▸ hmem)
    have h2 := ih st (fun o' ho' => hcls o' (by simp [ho'])) hmem
    simp [run_create_nodes, h1, is_constraint_query_creation, h2.1, h2.2]

/-! Claim C1. -/

/-- C1 (amended): for a model class with at least one unique-marked field
*and a non-empty extracted label list*, across any positive number of
sequential `create_node` calls on a non-transaction, succeeding session,
exactly one constraint-creation statement is issued — the first call issues
it and every later call short-circuits via the constraint cache. -/
theorem createNode_constraint_emitted_once (sess : Session) (cls : ModelCls)
    (os : List Obj) (st : List ModelCls)
    (htx : sess.is_transaction = false)
    (hrun : ∀ q, sess.runResult q = .ok (some 0))
    (hcls : ∀ o ∈ os, o.cls = cls)
    (hlab : create_node_labels cls ≠ [])
    (huniq : _extract_key_fields cls ≠ [])
    (hfresh : cls ∉ st)
    (hne : os ≠ []) :
    ((run_create_nodes sess st os).1.filter is_constraint_query).length = 1 := by
  obtain ⟨o, os', rfl⟩ := List.exists_cons_of_ne_nil hne
  have ho : o.cls = cls := hcls o (by simp)
  have h1 : create_node sess st o =
      (.ok 0, [constraint_query o.cls (create_node_labels o.cls), create_node_query o],
       o.cls :: st) :=
    create_node_fresh_spec sess st o htx hrun (ho ▸ hfresh) (ho ▸ hlab) (ho ▸ huniq)
  have h2 := run_create_nodes_cached sess cls hrun os' (o.cls :: st)
    (fun o' ho' => hcls o' (by simp [ho'])) (by simp [ho])
  simp [run_create_nodes, h1, h2.1, is_constraint_query_constraint,
    is_constraint_query_creation]

/-- C1 counterexample: a model class with a unique field whose declared
label list is empty. One `create_node` call on a fresh process with a
non-transaction, succeeding session issues zero constraint statements, not
one: `_ensure_constraints` returns early on the empty label list. -/
theorem createNode_constraint_once_fails_on_empty_labels :
    _extract_key_fields emptyLabelsCls ≠ [] ∧
    okSession.is_transaction = false ∧
    ((run_create_nodes okSession [] [oddObj]).1.filter is_constraint_query).length = 0 := by
  decide

/-- C1 witness: two Person creations issue exactly one constraint statement. -/
theorem createNode_constraint_emitted_once_witness :
    ((run_create_nodes okSession [] [alice, bob]).1.filter is_constraint_query).length = 1 :=
  createNode_constraint_emitted_once okSession personCls [alice, bob] [] rfl
    (fun _ => rfl) (by intro o ho; simp at ho; rcases ho with rfl | rfl <;> rfl)
    (by decide) (by decide) (by simp) (by simp)

/-! Claim C4. -/

/-- C4: when the session execution of the constraint statement inside
`_ensure_constraints` raises, the failure propagates unchanged out of
`create_node`, the class is not added to the constraint cache, and a
subsequent `create_node` call for the same class (here on a succeeding
non-transaction session) attempts — and performs — constraint emission
again. -/
theorem constraint_failure_not_cached (failSess sess : Session)
    (st : List ModelCls) (o : Obj)
    (htx1 : failSess.is_transaction = false)
    (hfail : ∀ q, failSess.runResult q = .error ())
    (hfresh : o.cls ∉ st)
    (hlab : create_node_labels o.cls ≠ [])
    (huniq : _extract_key_fields o.cls ≠ [])
    (htx2 : sess.is_transaction = false)
    (hrun : ∀ q, sess.runResult q = .ok (some 0)) :
    (create_node failSess st o).1 = .error .sessionFailure ∧
    (create_node failSess st o).2.2 = st ∧
    ((create_node sess (create_node failSess st o).2.2 o).2.1.filter
        is_constraint_query).length = 1 := by
  have h1 : create_node failSess st o =
      (.error .sessionFailure, [constraint_query o.cls (create_node_labels o.cls)], st) := by
    unfold create_node _ensure_constraints
    simp [htx1, hfresh, hlab, huniq, hfail]
  have h2 : create_node sess st o =
      (.ok 0, [constraint_query o.cls (create_node_labels o.cls), create_node_query o],
       o.cls :: st) :=
    create_node_fresh_spec sess st o htx2 hrun hfresh hlab huniq
  refine ⟨by simp [h1], by simp [h1], ?_⟩
  simp [h1, h2, is_constraint_query_constraint, is_constraint_query_creation]

/-- C4 witness: the failing first call leaves the cache empty and a retry on
a good session emits the constraint. -/
theorem constraint_failure_not_cached_witness :
    (create_node failSession [] alice).1 = .error .sessionFailure ∧
    (create_node failSession [] alice).2.2 = [] ∧
    ((create_node okSession (create_node failSession [] alice).2.2 alice).2.1.filter
        is_constraint_query).length = 1 :=
  constraint_failure_not_cached failSession okSession [] alice rfl (fun _ => rfl)
    (by simp) (by decide) (by decide) rfl (fun _ => rfl)

/-! Claim C9. -/

/-- C9 (amended): when `_ensure_constraints` skips because the session is an
explicit transaction or because the label list passed to it is empty, the
class is not added to the constraint cache; a later `create_node` call with
a non-transaction succeeding session then re-attempts constraint emission,
and actually issues the statement when the class' label list is non-empty
and it has at least one unique field. -/
theorem ensure_skip_not_cached_then_emit (sessA sess : Session) (cls : ModelCls)
    (skipLabels : List String) (st : List ModelCls) (o : Obj)
    (hskip : sessA.is_transaction = true ∨ skipLabels = [])
    (hfresh : cls ∉ st)
    (ho : o.cls = cls)
    (htx : sess.is_transaction = false)
    (hrun : ∀ q, sess.runResult q = .ok (some 0))
    (hlab : create_node_labels cls ≠ [])
    (huniq : _extract_key_fields cls ≠ []) :
    _ensure_constraints sessA st cls skipLabels = (.ok (), [], st) ∧
    ((create_node sess st o).2.1.filter is_constraint_query).length = 1 := by
  subst ho
  constructor
  · by_cases hA : sessA.is_transaction
    · simp [_ensure_constraints, hA]
    · rcases hskip with h | h
      · exact absurd h hA
      · simp [_ensure_constraints, hA, h]
  · have h2 : create_node sess st o =
        (.ok 0, [constraint_query o.cls (create_node_labels o.cls), create_node_query o],
         o.cls :: st) :=
      create_node_fresh_spec sess st o htx hrun hfresh hlab huniq
    simp [h2, is_constraint_query_constraint, is_constraint_query_creation]

/-- C9 counterexample: for a class whose declared label list is empty (and
which has a unique field), the skip leaves the cache unchanged, but a later
`create_node` call with a non-transaction succeeding session still emits *no*
constraint statement — the label list is a function of the class, so the
empty-labels skip repeats forever, contradicting the claim's "still emits
the constraint statement". -/
theorem ensure_skip_empty_labels_never_emits :
    _ensure_constraints okSession [] emptyLabelsCls (create_node_labels emptyLabelsCls) =
      (.ok (), [], []) ∧
    _extract_key_fields emptyLabelsCls ≠ [] ∧
    ((create_node okSession [] oddObj).2.1.filter is_constraint_query).length = 0 :=
  ⟨rfl, by decide, by decide⟩

/-- C9 witness: a transaction-session skip followed by an emitting call. -/
theorem ensure_skip_not_cached_then_emit_witness :
    _ensure_constraints txSession [] personCls ["Person"] = (.ok (), [], []) ∧
    ((create_node okSession [] alice).2.1.filter is_constraint_query).length = 1 :=
  ensure_skip_not_cached_then_emit txSession okSession personCls ["Person"] [] alice
    (Or.inl rfl) (by simp) rfl rfl (fun _ => rfl) (by decide) (by decide)

/-! Claim C2. -/

/-- C2: `retrieve_relationship_edges` renders exactly the specified query
shape for each direction — INCOMING `MATCH (b)-[r:$($rel_name)]->(a:Labels
match) RETURN r, b`, OUTGOING `MATCH (a:Labels match)-[r:$($rel_name)]->(b)
RETURN r, b`, UNDIRECTED `MATCH (a:Labels match)-[r:$($rel_name)]-(b)
RETURN r, b` — the relationship type name is bound in the parameter map
under `rel_name`, and the query text never depends on (hence never
interpolates) the type name. -/
theorem retrieve_edges_query_shapes (m : Obj) (rn : String) :
    (retrieve_relationship_edges_request m rn .INCOMING).text =
      "MATCH (b)-[r:$($rel_name)]->(a:" ++ String.intercalate "&" (_extract_labels m.cls) ++
        " " ++ _build_match_clause m.cls "from_node_props" ++ ") RETURN r, b" ∧
    (retrieve_relationship_edges_request m rn .OUTGOING).text =
      "MATCH (a:" ++ String.intercalate "&" (_extract_labels m.cls) ++ " " ++
        _build_match_clause m.cls "from_node_props" ++ ")-[r:$($rel_name)]->(b) RETURN r, b" ∧
    (retrieve_relationship_edges_request m rn .UNDIRECTED).text =
      "MATCH (a:" ++ String.intercalate "&" (_extract_labels m.cls) ++ " " ++
        _build_match_clause m.cls "from_node_props" ++ ")-[r:$($rel_name)]-(b) RETURN r, b" ∧
    (∀ d, (retrieve_relationship_edges_request m rn d).params.lookup "rel_name" =
      some (PVal.str rn)) ∧
    (∀ rn' d, (retrieve_relationship_edges_request m rn d).text =
      (retrieve_relationship_edges_request m rn' d).text) := by
  refine ⟨rfl, rfl, rfl, ?_, ?_⟩
  · intro d; cases d <;> rfl
  · intro rn' d; cases d <;> rfl

/-! Claim C3. -/

/-- Helper `firstDedupAux` is the identity on duplicate-free inputs disjoint from
the seen set. -/
theorem firstDedupAux_of_nodup :
    ∀ (l seen : List String), l.Nodup → (∀ y ∈ l, y ∉ seen) →
      firstDedupAux seen l = l := by
  intro l
  induction l with
  | nil => intro seen _ _; rfl
  | cons x xs ih =>
    intro seen hnd hdis
    have hx : x ∉ seen := hdis x (by simp)
    have hnd' := List.nodup_cons.mp hnd
    rw [firstDedupAux, if_neg hx]
    congr 1
    refine ih (x :: seen) hnd'.2 ?_
    intro y hy
    simp only [List.mem_cons, not_or]
    exact ⟨fun h => hnd'.1 (h ▸ hy), hdis y (by simp [hy])⟩

/-- Helper `firstDedup` is the identity on duplicate-free lists. -/
theorem firstDedup_of_nodup (l : List String) (h : l.Nodup) : firstDedup l = l :=
  firstDedupAux_of_nodup l [] h (by simp)

/-- C3 (amended): the match-clause builder returns the empty string when the
class has no key fields, and for duplicate-free key fields `[f1, ..., fn]`
returns exactly `{f1:$alias.f1,...,fn:$alias.fn}` in declaration order —
with *no* space after the colons or commas (the source joins
`f'{key}:{value}'` pieces with `','`). -/
theorem match_clause_shape (cls : ModelCls) (pa : String) :
    (_extract_key_fields cls = [] → _build_match_clause cls pa = "") ∧
    (∀ ks, _extract_key_fields cls = ks → ks ≠ [] → ks.Nodup →
      _build_match_clause cls pa =
        "\x7b" ++ String.intercalate "," (ks.map fun k => k ++ ":$" ++ pa ++ "." ++ k) ++
          "\x7d") := by
  constructor
  · intro h
    simp [_build_match_clause, h, firstDedup, firstDedupAux]
  · intro ks hks hne hnd
    unfold _build_match_clause
    rw [hks, firstDedup_of_nodup ks hnd, if_neg hne]

/-- C3 counterexample: for a single key field `k` and alias `alias` the
source produces `{k:$alias.k}`, not the claimed `{k: $alias.k}` — there is
no space after the colon. -/
theorem match_clause_space_counterexample :
    _build_match_clause personCls "alias" ≠ "\x7bname: $alias.name\x7d" ∧
    _build_match_clause personCls "alias" = "\x7bname:$alias.name\x7d" := by
  decide

/-- C3 witness: the amended fragment for Person's single key field. -/
theorem match_clause_shape_witness :
    _build_match_clause personCls "from_node_props" =
      "\x7b" ++ String.intercalate ","
        (["name"].map fun k => k ++ ":$" ++ "from_node_props" ++ "." ++ k) ++ "\x7d" :=
  (match_clause_shape personCls "from_node_props").2 ["name"] rfl (by decide) (by decide)

/-! Claim C5. -/

/-- C5 (amended): when the creation statement's result stream yields no row,
`create_node` raises the engine's *base* error
`CypheranticError('Failed to create node')` — which is not a ValueError-kind
error (`CypheranticError` subclasses only `Exception`). -/
theorem createNode_no_row_engine_error (sess : Session) (st : List ModelCls) (o : Obj)
    (hmem : o.cls ∈ st)
    (hrow : sess.runResult (create_node_query o) = .ok Option.none) :
    (create_node sess st o).1 =
      .error (.engine .cypheranticError "Failed to create node") ∧
    isSubclass .cypheranticError .valueError = false ∧
    isSubclass .cypheranticError .exception = true := by
  refine ⟨?_, by decide, by decide⟩
  unfold create_node
  simp [hmem, hrow]

/-- C5 counterexample: on an empty result stream the raised error is
`CypheranticError`, and `CypheranticError` is not a subclass of
`ValueError`, so `create_node` does not fail "with a ValueError-kind
error". -/
theorem createNode_no_row_not_valueError :
    (create_node noRowSession [personCls] alice).1 =
      .error (.engine .cypheranticError "Failed to create node") ∧
    isSubclass .cypheranticError .valueError = false :=
  ⟨rfl, by decide⟩

/-- C5 witness. -/
theorem createNode_no_row_engine_error_witness :
    (create_node noRowSession [personCls] alice).1 =
      .error (.engine .cypheranticError "Failed to create node") :=
  (createNode_no_row_engine_error noRowSession [personCls] alice (by decide)
    rfl).1

/-! Claim C6. -/

/-- C6: `create_relationship` with neither a relationship-type name nor a
properties instance raises
`CypheranticError('Either rel_cls or rel_type must be provided')` with an
empty statement trace — the session's `run` capability is never invoked. -/
theorem createRelationship_requires_type_or_props (sess : Session) (a b : Obj) :
    create_relationship sess a b Option.none Option.none =
      (.error (.engine .cypheranticError "Either rel_cls or rel_type must be provided"),
       []) := rfl

/-! Claim C7. -/

/-- The parameter map of the relationship-creation statement binds the
resolved name under `rel_name`. -/
theorem create_relationship_query_rel_name (a b : Obj) (rn : String)
    (rp : Option RelObj) :
    (create_relationship_query a b rn rp).params.lookup "rel_name" =
      some (PVal.str rn) := rfl

/-- The relationship name bound by the execution tail is the resolved name,
whatever the session answers. -/
theorem sent_rel_name_go (sess : Session) (a b : Obj) (rp : Option RelObj)
    (rn : String) :
    sent_rel_name (create_relationship_go sess a b rp rn) = some (PVal.str rn) := by
  unfold create_relationship_go
  cases h : sess.runResult (create_relationship_query a b rn rp) with
  | error e => cases e; simp [sent_rel_name, h, create_relationship_query_rel_name]
  | ok v => cases v <;> simp [sent_rel_name, h, create_relationship_query_rel_name]

/-- C7: the relationship name bound into the query is the explicit
`rel_type` argument when supplied; otherwise the `rel_type` entry of the
properties class' `cypherantic_config` when present; otherwise the
properties class' name. -/
theorem createRelationship_rel_name_resolution :
    (∀ (sess : Session) (a b : Obj) (rp : Option RelObj) (rt : String),
      sent_rel_name (create_relationship sess a b rp (some rt)) = some (PVal.str rt)) ∧
    (∀ (sess : Session) (a b : Obj) (rp : RelObj) (crn : String),
      rp.cls.config_rel_type = some crn →
      sent_rel_name (create_relationship sess a b (some rp) Option.none) =
        some (PVal.str crn)) ∧
    (∀ (sess : Session) (a b : Obj) (rp : RelObj),
      rp.cls.config_rel_type = Option.none →
      sent_rel_name (create_relationship sess a b (some rp) Option.none) =
        some (PVal.str rp.cls.name)) := by
  refine ⟨?_, ?_, ?_⟩
  · intro sess a b rp rt
    exact sent_rel_name_go sess a b rp rt
  · intro sess a b rp crn h
    show sent_rel_name (create_relationship_go sess a b (some rp) _) = _
    rw [h]
    exact sent_rel_name_go sess a b (some rp) crn
  · intro sess a b rp h
    show sent_rel_name (create_relationship_go sess a b (some rp) _) = _
    rw [h]
    exact sent_rel_name_go sess a b (some rp) rp.cls.name

/-- C7 witness: all three resolution branches at concrete inputs. -/
theorem createRelationship_rel_name_resolution_witness :
    sent_rel_name (create_relationship okSession alice bob (some likesObj) (some "KNOWS")) =
      some (PVal.str "KNOWS") ∧
    sent_rel_name (create_relationship okSession alice bob (some likesObj) Option.none) =
      some (PVal.str "LIKES") ∧
    sent_rel_name (create_relationship okSession alice bob (some plainRelObj) Option.none) =
      some (PVal.str "Knows") :=
  ⟨createRelationship_rel_name_resolution.1 okSession alice bob (some likesObj) "KNOWS",
   createRelationship_rel_name_resolution.2.1 okSession alice bob likesObj "LIKES" rfl,
   createRelationship_rel_name_resolution.2.2 okSession alice bob plainRelObj rfl⟩

/-! Claim C8. -/

/-- C8 (amended): the label extraction used by all operations (and its copy
inlined in `create_node`) returns the declared label list when one is
present and otherwise the one-element list holding the class name; the
result is non-empty *provided the declared list, when present, is
non-empty* — a class declaring `labels: []` yields an empty result. -/
theorem extract_labels_spec (cls : ModelCls) :
    create_node_labels cls = _extract_labels cls ∧
    (cls.config_labels = Option.none → _extract_labels cls = [cls.name]) ∧
    (∀ ls, cls.config_labels = some ls → _extract_labels cls = ls) ∧
    (cls.config_labels ≠ some [] → _extract_labels cls ≠ []) := by
  refine ⟨rfl, ?_, ?_, ?_⟩
  · intro h; simp [_extract_labels, h]
  · intro ls h; simp [_extract_labels, h]
  · intro h
    unfold _extract_labels
    cases hc : cls.config_labels with
    | none => simp
    | some ls =>
      cases ls with
      | nil => exact absurd hc h
      | cons a as => simp

/-- C8 counterexample: a class declaring an empty label list makes the
extracted label list empty, refuting the claimed non-emptiness invariant. -/
theorem extract_labels_empty_counterexample :
    _extract_labels emptyLabelsCls = [] := rfl

/-- C8 witness: Person has no declared labels and extracts `["Person"]`,
which is non-empty. -/
theorem extract_labels_spec_witness :
    _extract_labels personCls = ["Person"] ∧ _extract_labels personCls ≠ [] :=
  ⟨(extract_labels_spec personCls).2.1 rfl,
   (extract_labels_spec personCls).2.2.2 (by simp [personCls])⟩

/-! Claim C10. -/

/-- C10: every validation error the engine raises for absent/ambiguous
records, missing fields, or malformed relationship annotations — an
`InvalidValueError` or an `InvalidRelationshipError` — is a subclass of
both the engine's base `CypheranticError` and of `ValueError`, so a caller
catching `ValueError` catches all of them. -/
theorem validation_errors_subclass_valueError :
    (validation_raise_classes.all fun c =>
      isSubclass c .cypheranticError && isSubclass c .valueError) = true ∧
    isSubclass .invalidValueError .cypheranticError = true ∧
    isSubclass .invalidValueError .valueError = true ∧
    isSubclass .invalidRelationshipError .cypheranticError = true ∧
    isSubclass .invalidRelationshipError .valueError = true := by
  decide

end Cypherantic
